import Mathlib

/-!
Verification of the census-sdk guide tour engine against its specification.

The definitions below are shallow embeddings of the TypeScript source:
the tour session state machine (useGuideRenderer), the placement engine
(calculatePosition and friends), the element resolver (findElement),
the step body sanitizer (sanitizeHTML in StepContent) and the embedded
step mount and teardown effects (EmbeddedStep).
-/

namespace Census

/-- One step of a guide, as far as the session state machine observes it. -/
structure GuideStep where
  id : String
  step_type : String
  deriving DecidableEq

/-- A guide record: the state machine reads id and guide_steps only.
The guide_steps field is optional in the source and read as
guide_steps || [] everywhere. -/
structure Guide where
  id : String
  name : String
  guide_steps : Option (List GuideStep)
  deriving DecidableEq

/-- The step list a guide exposes: guide_steps || []. -/
def Guide.steps (g : Guide) : List GuideStep := g.guide_steps.getD []

/-- The tour session held by useGuideRenderer: activeGuide,
currentStepIndex, isPlaying plus the two id ledgers. -/
structure GuideSession where
  activeGuide : Option Guide
  currentStepIndex : Int
  isPlaying : Bool
  completedGuideIds : List String
  dismissedGuideIds : List String
  deriving DecidableEq

/-- The initial state of useGuideRenderer: no guide, index 0, not playing. -/
def initialSession : GuideSession :=
  { activeGuide := none, currentStepIndex := 0, isPlaying := false,
    completedGuideIds := [], dismissedGuideIds := [] }

/-- startGuide(guide, startStep = 0): sets the guide, the index and
isPlaying, with no validation of startStep. -/
def startGuide (g : Guide) (startStep : Int) (s : GuideSession) : GuideSession :=
  { s with activeGuide := some g, currentStepIndex := startStep, isPlaying := true }

/-- nextStep: no-op without an active guide; below the last index it
increments; otherwise it records completion and clears the guide. -/
def nextStep (s : GuideSession) : GuideSession :=
  match s.activeGuide with
  | none => s
  | some g =>
    let steps := g.guide_steps.getD []
    if s.currentStepIndex < (steps.length : Int) - 1 then
      { s with currentStepIndex := s.currentStepIndex + 1 }
    else
      { s with completedGuideIds := s.completedGuideIds ++ [g.id],
               isPlaying := false, activeGuide := none }

/-- prevStep: decrements when the index is positive. It does not
consult activeGuide. -/
def prevStep (s : GuideSession) : GuideSession :=
  if s.currentStepIndex > 0 then
    { s with currentStepIndex := s.currentStepIndex - 1 }
  else s

/-- goToStep: sets the index when an active guide exists and the index
is within range, else no-op. -/
def goToStep (stepIndex : Int) (s : GuideSession) : GuideSession :=
  match s.activeGuide with
  | none => s
  | some g =>
    let steps := g.guide_steps.getD []
    if 0 ≤ stepIndex ∧ stepIndex < (steps.length : Int) then
      { s with currentStepIndex := stepIndex }
    else s

/-- dismiss: records the active guide id when present, then stops
playback, clears the guide and resets the index to 0. -/
def dismiss (s : GuideSession) : GuideSession :=
  let s1 :=
    match s.activeGuide with
    | some g => { s with dismissedGuideIds := s.dismissedGuideIds ++ [g.id] }
    | none => s
  { s1 with isPlaying := false, activeGuide := none, currentStepIndex := 0 }

/-- The operations a consumer can invoke on the session. -/
inductive GuideAction where
  | start (g : Guide) (fromIndex : Int)
  | next
  | prev
  | goto (i : Int)
  | dismiss
  deriving DecidableEq

/-- Apply one action to a session. -/
def applyAction (s : GuideSession) : GuideAction → GuideSession
  | .start g i => startGuide g i s
  | .next => nextStep s
  | .prev => prevStep s
  | .goto i => goToStep i s
  | .dismiss => dismiss s

/-- Run a sequence of actions from the initial session. -/
def runActions (acts : List GuideAction) : GuideSession :=
  acts.foldl applyAction initialSession

/-- The spec invariant: whenever a guide is active the index is within
the range of its steps. -/
def sessionInvariant (s : GuideSession) : Prop :=
  ∀ g, s.activeGuide = some g →
    0 ≤ s.currentStepIndex ∧ s.currentStepIndex < (g.steps.length : Int)

/-- A start action whose index lies within the range of the steps of
the started guide; other actions are unconstrained. -/
def startIndexValid : GuideAction → Prop
  | .start g i => 0 ≤ i ∧ i < (g.steps.length : Int)
  | _ => True

/-- The step the GuideRenderer component shows: null when inactive,
when the step list is empty, or when the index has no step. -/
def renderGuide (guide : Guide) (idx : Int) (isActive : Bool) : Option GuideStep :=
  let steps := guide.guide_steps.getD []
  let currentStep : Option GuideStep :=
    if 0 ≤ idx then steps.get? idx.toNat else none
  if isActive = false ∨ currentStep = none ∨ steps.length = 0 then none
  else currentStep

/-! ### Invariant preservation lemmas for the session state machine -/

theorem sessionInvariant_initial : sessionInvariant initialSession := by
  intro g hg
  simp [initialSession] at hg

theorem sessionInvariant_startGuide (g : Guide) (i : Int) (s : GuideSession)
    (h0 : 0 ≤ i) (h1 : i < (g.steps.length : Int)) :
    sessionInvariant (startGuide g i s) := by
  intro g2 hg2
  simp only [startGuide] at hg2 ⊢
  obtain rfl : g = g2 := Option.some.inj hg2
  exact ⟨h0, h1⟩

theorem sessionInvariant_nextStep (s : GuideSession)
    (hs : sessionInvariant s) : sessionInvariant (nextStep s) := by
  rcases hag : s.activeGuide with _ | g
  · intro g2 hg2
    simp only [nextStep, hag] at hg2 ⊢
    exact hs g2 (hag ▸ hg2)
  · have hinv := hs g hag
    intro g2 hg2
    simp only [nextStep, hag] at hg2 ⊢
    by_cases hlt : s.currentStepIndex < ((g.guide_steps.getD []).length : Int) - 1
    · simp only [if_pos hlt] at hg2 ⊢
      obtain rfl : g = g2 := Option.some.inj hg2
      unfold Guide.steps at hinv ⊢
      omega
    · simp [if_neg hlt] at hg2

theorem sessionInvariant_prevStep (s : GuideSession)
    (hs : sessionInvariant s) : sessionInvariant (prevStep s) := by
  intro g2 hg2
  unfold prevStep at hg2 ⊢
  by_cases hpos : s.currentStepIndex > 0
  · simp only [if_pos hpos] at hg2 ⊢
    have := hs g2 hg2
    omega
  · simp only [if_neg hpos] at hg2 ⊢
    exact hs g2 hg2

theorem sessionInvariant_goToStep (i : Int) (s : GuideSession)
    (hs : sessionInvariant s) : sessionInvariant (goToStep i s) := by
  rcases hag : s.activeGuide with _ | g
  · intro g2 hg2
    simp only [goToStep, hag] at hg2 ⊢
    exact hs g2 (hag ▸ hg2)
  · intro g2 hg2
    simp only [goToStep, hag] at hg2 ⊢
    by_cases hin : 0 ≤ i ∧ i < ((g.guide_steps.getD []).length : Int)
    · simp only [if_pos hin] at hg2 ⊢
      obtain rfl : g = g2 := Option.some.inj (hag ▸ hg2)
      unfold Guide.steps
      exact hin
    · simp only [if_neg hin] at hg2 ⊢
      exact hs g2 (hag ▸ hg2)

theorem sessionInvariant_dismiss (s : GuideSession) :
    sessionInvariant (dismiss s) := by
  intro g2 hg2
  rcases hag : s.activeGuide with _ | g <;> simp [dismiss, hag] at hg2

theorem sessionInvariant_applyAction (s : GuideSession) (a : GuideAction)
    (hs : sessionInvariant s) (ha : startIndexValid a) :
    sessionInvariant (applyAction s a) := by
  cases a with
  | start g i => exact sessionInvariant_startGuide g i s ha.1 ha.2
  | next => exact sessionInvariant_nextStep s hs
  | prev => exact sessionInvariant_prevStep s hs
  | goto i => exact sessionInvariant_goToStep i s hs
  | dismiss => exact sessionInvariant_dismiss s

theorem sessionInvariant_foldl (acts : List GuideAction) (s : GuideSession)
    (hs : sessionInvariant s) (ha : ∀ a ∈ acts, startIndexValid a) :
    sessionInvariant (acts.foldl applyAction s) := by
  induction acts generalizing s with
  | nil => exact hs
  | cons a rest ih =>
      simp only [List.foldl_cons]
      exact ih (applyAction s a)
        (sessionInvariant_applyAction s a hs (ha a (List.mem_cons_self a rest)))
        (fun b hb => ha b (List.mem_cons_of_mem a hb))

/-- A concrete one-step guide used in concrete evaluations. -/
def gOne : Guide :=
  { id := "g-one", name := "One", guide_steps := some [{ id := "s1", step_type := "tooltip" }] }

/-- A concrete two-step guide used in concrete evaluations. -/
def gTwo : Guide :=
  { id := "g-two", name := "Two",
    guide_steps := some [{ id := "s1", step_type := "tooltip" }, { id := "s2", step_type := "modal" }] }

/-- A concrete zero-step guide used in concrete evaluations. -/
def gZero : Guide :=
  { id := "g-zero", name := "Zero", guide_steps := some [] }

/-- C2 counterexample: startGuide performs no validation of its index,
so starting a one-step guide at index 5 reaches a state with an active
guide whose current index is out of range, falsifying the claimed
invariant for arbitrary argument values. -/
theorem C2_counterexample :
    ¬ sessionInvariant (runActions [.start gOne 5]) := by
  intro h
  have h2 := h gOne rfl
  have : (runActions [.start gOne 5]).currentStepIndex = 5 := rfl
  rw [this] at h2
  have : ((gOne.steps.length : Int)) = 1 := rfl
  rw [this] at h2
  omega

/-- C2 (amended): the invariant, that whenever activeGuide is non-null
the current index satisfies 0 <= currentStepIndex < steps.length, holds
in every state reachable through startGuide, nextStep, prevStep,
goToStep and dismiss, provided every startGuide call uses a fromIndex
within the range of the steps of the started guide. -/
theorem C2_session_invariant (acts : List GuideAction)
    (ha : ∀ a ∈ acts, startIndexValid a) :
    sessionInvariant (runActions acts) :=
  sessionInvariant_foldl acts initialSession sessionInvariant_initial ha

/-- C2 witness: a concrete run mixing all five operations with an
in-range start keeps the invariant. -/
theorem C2_session_invariant_witness :
    sessionInvariant (runActions [.start gTwo 0, .next, .prev, .goto 1, .dismiss, .start gTwo 1]) := by
  apply C2_session_invariant
  intro a ha
  fin_cases ha <;> simp [startIndexValid, gTwo, Guide.steps]

/-! ### Characterization lemmas for nextStep -/

theorem nextStep_of_activeGuide_none (s : GuideSession)
    (h : s.activeGuide = none) : nextStep s = s := by
  unfold nextStep
  rw [h]

theorem nextStep_advance_eq (s : GuideSession) (g : Guide)
    (hag : s.activeGuide = some g)
    (hlt : s.currentStepIndex < (g.steps.length : Int) - 1) :
    nextStep s = { s with currentStepIndex := s.currentStepIndex + 1 } := by
  have hlt2 : s.currentStepIndex < ((g.guide_steps.getD []).length : Int) - 1 := hlt
  unfold nextStep
  rw [hag]
  simp only
  rw [if_pos hlt2]

theorem nextStep_complete_eq (s : GuideSession) (g : Guide)
    (hag : s.activeGuide = some g)
    (hge : ¬ s.currentStepIndex < (g.steps.length : Int) - 1) :
    nextStep s = { s with
                   activeGuide := none
                   isPlaying := false
                   completedGuideIds := s.completedGuideIds ++ [g.id] } := by
  have hge2 : ¬ s.currentStepIndex < ((g.guide_steps.getD []).length : Int) - 1 := hge
  unfold nextStep
  rw [hag]
  simp only
  rw [if_neg hge2]

theorem nextStep_iter (g : Guide) (k : ℕ) (s : GuideSession)
    (hag : s.activeGuide = some g) (hplay : s.isPlaying = true)
    (hidx : s.currentStepIndex + k ≤ (g.steps.length : Int) - 1) :
    (nextStep^[k] s).activeGuide = some g ∧
    (nextStep^[k] s).currentStepIndex = s.currentStepIndex + k ∧
    (nextStep^[k] s).isPlaying = true ∧
    (nextStep^[k] s).completedGuideIds = s.completedGuideIds ∧
    (nextStep^[k] s).dismissedGuideIds = s.dismissedGuideIds := by
  induction k generalizing s with
  | zero => simpa using ⟨hag, hplay⟩
  | succ k ih =>
      have hlt : s.currentStepIndex < (g.steps.length : Int) - 1 := by
        push_cast at hidx
        omega
      have hstep := nextStep_advance_eq s g hag hlt
      rw [Function.iterate_succ_apply, hstep]
      have hrec := ih { s with currentStepIndex := s.currentStepIndex + 1 } hag hplay
        (by show s.currentStepIndex + 1 + (k : Int) ≤ (g.steps.length : Int) - 1
            push_cast at hidx
            omega)
      refine ⟨hrec.1, ?_, hrec.2.2.1, hrec.2.2.2.1, hrec.2.2.2.2⟩
      rw [hrec.2.1]
      show s.currentStepIndex + 1 + (k : Int) = s.currentStepIndex + ((k : ℕ) + 1 : ℕ)
      push_cast
      ring

/-- C3 counterexample: startGuide performs no validation at all.
Starting the one-step guide at index 5 yields a Playing session at
index 5 (out of range), and starting the zero-step guide leaves the
session Playing with nothing recorded as completed, rather than
immediately completing. -/
theorem C3_counterexample :
    (startGuide gOne 5 initialSession).currentStepIndex = 5 ∧
    ¬ ((startGuide gOne 5 initialSession).currentStepIndex < (gOne.steps.length : Int)) ∧
    (startGuide gZero 0 initialSession).isPlaying = true ∧
    (startGuide gZero 0 initialSession).activeGuide = some gZero ∧
    (startGuide gZero 0 initialSession).completedGuideIds = [] := by
  refine ⟨rfl, ?_, rfl, rfl, rfl⟩
  decide

/-- C3 (amended): startGuide(guide, fromIndex) unconditionally moves the
session to Playing at exactly fromIndex, with no validation and no
clamping; a zero-step guide does not complete (the completed ledger is
unchanged and the session stays Playing), and the renderer shows no
step for it. -/
theorem C3_startGuide_unvalidated (g : Guide) (i : Int) (s : GuideSession) :
    (startGuide g i s).activeGuide = some g ∧
    (startGuide g i s).currentStepIndex = i ∧
    (startGuide g i s).isPlaying = true ∧
    (startGuide g i s).completedGuideIds = s.completedGuideIds ∧
    (g.steps = [] → renderGuide g i true = none) := by
  refine ⟨rfl, rfl, rfl, rfl, fun hz => ?_⟩
  have hz2 : g.guide_steps.getD [] = [] := hz
  simp [renderGuide, hz2]

/-- C3 witness: the amended statement evaluated on the zero-step guide
at index 0 from the initial session. -/
theorem C3_startGuide_unvalidated_witness :
    (startGuide gZero 0 initialSession).activeGuide = some gZero ∧
    renderGuide gZero 0 true = none := by
  have h := C3_startGuide_unvalidated gZero 0 initialSession
  exact ⟨h.1, h.2.2.2.2 rfl⟩

/-- C4: with a non-null activeGuide, nextStep increments the index by
exactly 1 and keeps everything else (in particular isPlaying) when the
index is below the last one, and otherwise clears the guide, stops
playback, and appends the guide id to the completed ledger; iterating
from Playing at index 0 on a guide with n >= 1 steps, n - 1 advances
reach Playing at the last index and one further advance completes. -/
theorem C4_advance (g : Guide) :
    (∀ s : GuideSession, s.activeGuide = some g →
      (s.currentStepIndex < (g.steps.length : Int) - 1 →
        nextStep s = { s with currentStepIndex := s.currentStepIndex + 1 }) ∧
      (¬ s.currentStepIndex < (g.steps.length : Int) - 1 →
        nextStep s = { s with
                       activeGuide := none
                       isPlaying := false
                       completedGuideIds := s.completedGuideIds ++ [g.id] })) ∧
    (∀ s : GuideSession, s.activeGuide = some g → s.isPlaying = true →
      s.currentStepIndex = 0 → 1 ≤ g.steps.length →
      ((nextStep^[g.steps.length - 1] s).activeGuide = some g ∧
       (nextStep^[g.steps.length - 1] s).currentStepIndex = (g.steps.length : Int) - 1 ∧
       (nextStep^[g.steps.length - 1] s).isPlaying = true) ∧
      ((nextStep^[g.steps.length] s).activeGuide = none ∧
       (nextStep^[g.steps.length] s).isPlaying = false ∧
       (nextStep^[g.steps.length] s).completedGuideIds = s.completedGuideIds ++ [g.id])) := by
  constructor
  · intro s hag
    exact ⟨nextStep_advance_eq s g hag, nextStep_complete_eq s g hag⟩
  · intro s hag hplay h0 hlen
    have hiter := nextStep_iter g (g.steps.length - 1) s hag hplay
      (by rw [h0]; push_cast [hlen]; omega)
    have hidx : (nextStep^[g.steps.length - 1] s).currentStepIndex
        = (g.steps.length : Int) - 1 := by
      rw [hiter.2.1, h0]; push_cast [hlen]; omega
    refine ⟨⟨hiter.1, hidx, hiter.2.2.1⟩, ?_⟩
    have hsucc : g.steps.length = (g.steps.length - 1) + 1 := by omega
    rw [hsucc, Function.iterate_succ_apply']
    have hcomp := nextStep_complete_eq (nextStep^[g.steps.length - 1] s) g hiter.1
      (by rw [hidx]; omega)
    rw [hcomp]
    exact ⟨rfl, rfl, by simp only [hiter.2.2.2.1]⟩

/-- C4 witness: the two-step guide started at index 0 reaches the last
index after one advance and completes after a second one. -/
theorem C4_advance_witness :
    (nextStep^[1] (startGuide gTwo 0 initialSession)).currentStepIndex = 1 ∧
    (nextStep^[2] (startGuide gTwo 0 initialSession)).activeGuide = none ∧
    (nextStep^[2] (startGuide gTwo 0 initialSession)).completedGuideIds = ["g-two"] := by
  have h := (C4_advance gTwo).2 (startGuide gTwo 0 initialSession) rfl rfl rfl (by decide)
  exact ⟨h.1.2.1, h.2.1, h.2.2.2⟩

/-- C5 counterexample: after completing the two-step guide (advance
from its last step), the latent currentStepIndex is not reset, and
prevStep does not consult activeGuide, so a subsequent retreat changes
the session state, falsifying the claim that Completed is terminal for
every session field. -/
theorem C5_counterexample :
    (runActions [.start gTwo 0, .next, .next]).activeGuide = none ∧
    (runActions [.start gTwo 0, .next, .next]).completedGuideIds = ["g-two"] ∧
    prevStep (runActions [.start gTwo 0, .next, .next])
      ≠ runActions [.start gTwo 0, .next, .next] := by
  refine ⟨rfl, rfl, ?_⟩
  decide

/-- C5 (amended): after dismiss() the session is fully terminal: both
advance and retreat leave every field unchanged until start() is called
again. After advance() from the last step (Completed), advance is a
no-op and retreat leaves activeGuide, isPlaying and both ledgers
unchanged, but decrements the latent currentStepIndex whenever it is
positive, because nextStep does not reset the index and prevStep does
not consult activeGuide. -/
theorem C5_terminal_states (s : GuideSession) :
    (nextStep (dismiss s) = dismiss s ∧ prevStep (dismiss s) = dismiss s) ∧
    (∀ g, s.activeGuide = some g → ¬ s.currentStepIndex < (g.steps.length : Int) - 1 →
      (nextStep (nextStep s) = nextStep s ∧
       (prevStep (nextStep s)).activeGuide = (nextStep s).activeGuide ∧
       (prevStep (nextStep s)).isPlaying = (nextStep s).isPlaying ∧
       (prevStep (nextStep s)).completedGuideIds = (nextStep s).completedGuideIds ∧
       (prevStep (nextStep s)).dismissedGuideIds = (nextStep s).dismissedGuideIds) ∧
      (0 < (nextStep s).currentStepIndex →
        (prevStep (nextStep s)).currentStepIndex = (nextStep s).currentStepIndex - 1)) := by
  constructor
  · constructor
    · rfl
    · have h0 : (dismiss s).currentStepIndex = 0 := rfl
      unfold prevStep
      rw [h0]
      simp
  · intro g hag hge
    have hc := nextStep_complete_eq s g hag hge
    have hcag : (nextStep s).activeGuide = none := by rw [hc]
    constructor
    · refine ⟨?_, ?_, ?_, ?_, ?_⟩
      · exact nextStep_of_activeGuide_none (nextStep s) hcag
      · unfold prevStep; split <;> rfl
      · unfold prevStep; split <;> rfl
      · unfold prevStep; split <;> rfl
      · unfold prevStep; split <;> rfl
    · intro hpos
      unfold prevStep
      rw [if_pos hpos]

/-- C5 witness: the amended statement evaluated after completing the
two-step guide: advance stays put and retreat drops the latent index
from 1 to 0. -/
theorem C5_terminal_states_witness :
    (nextStep (dismiss (startGuide gTwo 0 initialSession))
       = dismiss (startGuide gTwo 0 initialSession)) ∧
    (prevStep (nextStep (nextStep (startGuide gTwo 1 initialSession)))).currentStepIndex
      = (nextStep (nextStep (startGuide gTwo 1 initialSession))).currentStepIndex - 1 := by
  constructor
  · exact (C5_terminal_states (startGuide gTwo 0 initialSession)).1.1
  · have h := (C5_terminal_states (startGuide gTwo 1 initialSession)).2 gTwo
      rfl (by decide)
    exact h.2 (by decide)

/-- C10: starting a guide while another one is Playing unconditionally
replaces the active session, and the interrupted guide id is appended
to neither the completed nor the dismissed ledger. -/
theorem C10_start_replaces (s : GuideSession) (gOld gNew : Guide) (i : Int)
    (hag : s.activeGuide = some gOld) (hplay : s.isPlaying = true) :
    (startGuide gNew i s).activeGuide = some gNew ∧
    (startGuide gNew i s).currentStepIndex = i ∧
    (startGuide gNew i s).isPlaying = true ∧
    (startGuide gNew i s).completedGuideIds = s.completedGuideIds ∧
    (startGuide gNew i s).dismissedGuideIds = s.dismissedGuideIds :=
  ⟨rfl, rfl, rfl, rfl, rfl⟩

/-- C10 witness: interrupting the playing one-step guide with the
two-step one keeps both ledgers empty. -/
theorem C10_start_replaces_witness :
    (startGuide gTwo 0 (startGuide gOne 0 initialSession)).activeGuide = some gTwo ∧
    (startGuide gTwo 0 (startGuide gOne 0 initialSession)).completedGuideIds = [] ∧
    (startGuide gTwo 0 (startGuide gOne 0 initialSession)).dismissedGuideIds = [] := by
  have h := C10_start_replaces (startGuide gOne 0 initialSession) gOne gTwo 0 rfl rfl
  exact ⟨h.1, h.2.2.2.1, h.2.2.2.2⟩

/-! ### Placement engine (positioning source file) -/

/-- The tooltip placement tag. -/
inductive TooltipPosition where
  | auto | top | bottom | left | right
  deriving DecidableEq

/-- Bounding rect of an element in document coordinates. -/
structure ElementRect where
  top : ℚ
  left : ℚ
  right : ℚ
  bottom : ℚ
  width : ℚ
  height : ℚ
  deriving DecidableEq

/-- Viewport dimensions and scroll offsets, as read from the window. -/
structure Viewport where
  width : ℚ
  height : ℚ
  scrollX : ℚ
  scrollY : ℚ
  deriving DecidableEq

/-- Caller supplied pixel offset. -/
structure PixelOffset where
  x : ℚ
  y : ℚ
  deriving DecidableEq

/-- Position configuration: offset, containerPadding and arrowSize are
optional with defaults 0/0, 10 and 8. -/
structure PositionConfig where
  preferredPosition : TooltipPosition
  offset : Option PixelOffset
  containerPadding : Option ℚ
  arrowSize : Option ℚ
  deriving DecidableEq

/-- Arrow offset and rotation hint. -/
structure ArrowPosition where
  top : Option ℚ
  left : Option ℚ
  transform : Option String
  deriving DecidableEq

/-- Result of calculatePosition. -/
structure ComputedPosition where
  top : ℚ
  left : ℚ
  placement : TooltipPosition
  arrowPosition : ArrowPosition
  deriving DecidableEq

/-- hasSpaceForPosition: a side has room when the main-axis distance of
the target to the viewport edge exceeds the tooltip extent plus padding
and the centered cross-axis span stays inside the viewport. -/
def hasSpaceForPosition (viewport : Viewport) (targetRect : ElementRect)
    (tooltipWidth tooltipHeight : ℚ) (position : TooltipPosition)
    (padding : ℚ) : Bool :=
  let scrollX := viewport.scrollX
  let scrollY := viewport.scrollY
  let viewportWidth := viewport.width
  let viewportHeight := viewport.height
  match position with
  | .top =>
      decide (targetRect.top - scrollY - tooltipHeight - padding > 0) &&
      decide (targetRect.left - scrollX + targetRect.width / 2 - tooltipWidth / 2 > 0) &&
      decide (targetRect.left - scrollX + targetRect.width / 2 + tooltipWidth / 2 < viewportWidth)
  | .bottom =>
      decide (targetRect.bottom - scrollY + tooltipHeight + padding < viewportHeight) &&
      decide (targetRect.left - scrollX + targetRect.width / 2 - tooltipWidth / 2 > 0) &&
      decide (targetRect.left - scrollX + targetRect.width / 2 + tooltipWidth / 2 < viewportWidth)
  | .left =>
      decide (targetRect.left - scrollX - tooltipWidth - padding > 0) &&
      decide (targetRect.top - scrollY + targetRect.height / 2 - tooltipHeight / 2 > 0) &&
      decide (targetRect.top - scrollY + targetRect.height / 2 + tooltipHeight / 2 < viewportHeight)
  | .right =>
      decide (targetRect.right - scrollX + tooltipWidth + padding < viewportWidth) &&
      decide (targetRect.top - scrollY + targetRect.height / 2 - tooltipHeight / 2 > 0) &&
      decide (targetRect.top - scrollY + targetRect.height / 2 + tooltipHeight / 2 < viewportHeight)
  | .auto => true

/-- The fixed preference order tried by findBestPosition. -/
def positionOrder : List TooltipPosition := [.bottom, .top, .right, .left]

/-- findBestPosition: first side of the preference order with room,
falling back to bottom. -/
def findBestPosition (viewport : Viewport) (targetRect : ElementRect)
    (tooltipWidth tooltipHeight padding : ℚ) : TooltipPosition :=
  match positionOrder.find?
      (fun p => hasSpaceForPosition viewport targetRect tooltipWidth tooltipHeight p padding) with
  | some p => p
  | none => .bottom

/-- The opposites record used by the flip logic of calculatePosition;
auto has no opposite. -/
def oppositesMap : TooltipPosition → Option TooltipPosition
  | .top => some .bottom
  | .bottom => some .top
  | .left => some .right
  | .right => some .left
  | .auto => none

/-- First stage of calculatePosition: determine the final side from the
preferred one (the auto search, or the flip-to-opposite-on-no-room
logic). -/
def resolveFinalPosition (viewport : Viewport) (targetRect : ElementRect)
    (tooltipWidth tooltipHeight : ℚ) (preferredPosition : TooltipPosition)
    (containerPadding : ℚ) : TooltipPosition :=
  if preferredPosition = .auto then
    findBestPosition viewport targetRect tooltipWidth tooltipHeight containerPadding
  else if hasSpaceForPosition viewport targetRect tooltipWidth tooltipHeight
      preferredPosition containerPadding then
    preferredPosition
  else
    match oppositesMap preferredPosition with
    | some opp =>
        if hasSpaceForPosition viewport targetRect tooltipWidth tooltipHeight
            opp containerPadding then opp
        else preferredPosition
    | none => preferredPosition

/-- Second stage of calculatePosition: the switch over the resolved
side computing raw top, left and arrow, then the per-axis clamping with
the arrow adjustment. -/
def placeAndClamp (viewport : Viewport) (targetRect : ElementRect)
    (tooltipWidth tooltipHeight : ℚ) (offset : PixelOffset)
    (containerPadding arrowSize : ℚ)
    (finalPosition : TooltipPosition) : ComputedPosition :=
  let gap := arrowSize + 4
  let raw : ℚ × ℚ × ArrowPosition :=
    match finalPosition with
    | .top =>
        (targetRect.top - tooltipHeight - gap + offset.y,
         targetRect.left + targetRect.width / 2 - tooltipWidth / 2 + offset.x,
         { top := some tooltipHeight,
           left := some (tooltipWidth / 2 - arrowSize / 2),
           transform := some "rotate(180deg)" })
    | .bottom =>
        (targetRect.bottom + gap + offset.y,
         targetRect.left + targetRect.width / 2 - tooltipWidth / 2 + offset.x,
         { top := some (-arrowSize),
           left := some (tooltipWidth / 2 - arrowSize / 2),
           transform := none })
    | .left =>
        (targetRect.top + targetRect.height / 2 - tooltipHeight / 2 + offset.y,
         targetRect.left - tooltipWidth - gap + offset.x,
         { top := some (tooltipHeight / 2 - arrowSize / 2),
           left := some tooltipWidth,
           transform := some "rotate(-90deg)" })
    | .right =>
        (targetRect.top + targetRect.height / 2 - tooltipHeight / 2 + offset.y,
         targetRect.right + gap + offset.x,
         { top := some (tooltipHeight / 2 - arrowSize / 2),
           left := some (-arrowSize),
           transform := some "rotate(90deg)" })
    | .auto => (0, 0, { top := none, left := none, transform := none })
  let top0 := raw.1
  let left0 := raw.2.1
  let arrow0 := raw.2.2
  let minLeft := viewport.scrollX + containerPadding
  let maxLeft := viewport.scrollX + viewport.width - tooltipWidth - containerPadding
  let minTop := viewport.scrollY + containerPadding
  let maxTop := viewport.scrollY + viewport.height - tooltipHeight - containerPadding
  let left1 := max minLeft (min maxLeft left0)
  let arrow1 :=
    if finalPosition = .top ∨ finalPosition = .bottom then
      { arrow0 with left := some (arrow0.left.getD 0 + (left0 - left1)) }
    else arrow0
  let top1 := max minTop (min maxTop top0)
  let arrow2 :=
    if finalPosition = .left ∨ finalPosition = .right then
      { arrow1 with top := some (arrow1.top.getD 0 + (top0 - top1)) }
    else arrow1
  { top := top1, left := left1, placement := finalPosition, arrowPosition := arrow2 }

/-- calculatePosition, with the ambient window reads (element rect and
viewport) passed in explicitly: resolve the side, then place and clamp. -/
def calculatePosition (viewport : Viewport) (targetRect : ElementRect)
    (tooltipWidth tooltipHeight : ℚ) (config : PositionConfig) : ComputedPosition :=
  let offset := config.offset.getD { x := 0, y := 0 }
  let containerPadding := config.containerPadding.getD 10
  let arrowSize := config.arrowSize.getD 8
  placeAndClamp viewport targetRect tooltipWidth tooltipHeight offset containerPadding arrowSize
    (resolveFinalPosition viewport targetRect tooltipWidth tooltipHeight
      config.preferredPosition containerPadding)

/-! ### Placement engine lemmas -/

theorem placeAndClamp_placement (viewport : Viewport) (targetRect : ElementRect)
    (w h : ℚ) (off : PixelOffset) (pad asz : ℚ) (fp : TooltipPosition) :
    (placeAndClamp viewport targetRect w h off pad asz fp).placement = fp := by
  cases fp <;> rfl

theorem clamp_bounds (a b x : ℚ) (hab : a ≤ b) :
    a ≤ max a (min b x) ∧ max a (min b x) ≤ b :=
  ⟨le_max_left a (min b x), max_le hab (min_le_left b x)⟩

theorem placeAndClamp_top_bounds (viewport : Viewport) (targetRect : ElementRect)
    (w h : ℚ) (off : PixelOffset) (pad asz : ℚ) (fp : TooltipPosition)
    (hab : viewport.scrollY + pad ≤ viewport.scrollY + viewport.height - h - pad) :
    viewport.scrollY + pad ≤ (placeAndClamp viewport targetRect w h off pad asz fp).top ∧
    (placeAndClamp viewport targetRect w h off pad asz fp).top
      ≤ viewport.scrollY + viewport.height - h - pad := by
  cases fp <;>
    exact clamp_bounds (viewport.scrollY + pad)
      (viewport.scrollY + viewport.height - h - pad) _ hab

theorem placeAndClamp_left_bounds (viewport : Viewport) (targetRect : ElementRect)
    (w h : ℚ) (off : PixelOffset) (pad asz : ℚ) (fp : TooltipPosition)
    (hab : viewport.scrollX + pad ≤ viewport.scrollX + viewport.width - w - pad) :
    viewport.scrollX + pad ≤ (placeAndClamp viewport targetRect w h off pad asz fp).left ∧
    (placeAndClamp viewport targetRect w h off pad asz fp).left
      ≤ viewport.scrollX + viewport.width - w - pad := by
  cases fp <;>
    exact clamp_bounds (viewport.scrollX + pad)
      (viewport.scrollX + viewport.width - w - pad) _ hab

theorem placeAndClamp_arrow_left (viewport : Viewport) (targetRect : ElementRect)
    (w h : ℚ) (off : PixelOffset) (pad asz : ℚ) (fp : TooltipPosition)
    (hfp : fp = .top ∨ fp = .bottom) :
    (placeAndClamp viewport targetRect w h off pad asz fp).arrowPosition.left =
      some ((w / 2 - asz / 2) +
        ((targetRect.left + targetRect.width / 2 - w / 2 + off.x) -
         (placeAndClamp viewport targetRect w h off pad asz fp).left)) := by
  rcases hfp with rfl | rfl <;> rfl

theorem placeAndClamp_arrow_top (viewport : Viewport) (targetRect : ElementRect)
    (w h : ℚ) (off : PixelOffset) (pad asz : ℚ) (fp : TooltipPosition)
    (hfp : fp = .left ∨ fp = .right) :
    (placeAndClamp viewport targetRect w h off pad asz fp).arrowPosition.top =
      some ((h / 2 - asz / 2) +
        ((targetRect.top + targetRect.height / 2 - h / 2 + off.y) -
         (placeAndClamp viewport targetRect w h off pad asz fp).top)) := by
  rcases hfp with rfl | rfl <;> rfl

theorem findBestPosition_eq (viewport : Viewport) (targetRect : ElementRect)
    (w h pad : ℚ) :
    findBestPosition viewport targetRect w h pad =
      (if hasSpaceForPosition viewport targetRect w h .bottom pad then .bottom
       else if hasSpaceForPosition viewport targetRect w h .top pad then .top
       else if hasSpaceForPosition viewport targetRect w h .right pad then .right
       else if hasSpaceForPosition viewport targetRect w h .left pad then .left
       else .bottom) := by
  unfold findBestPosition positionOrder
  cases hb : hasSpaceForPosition viewport targetRect w h .bottom pad
  · cases ht : hasSpaceForPosition viewport targetRect w h .top pad
    · cases hr : hasSpaceForPosition viewport targetRect w h .right pad
      · cases hl : hasSpaceForPosition viewport targetRect w h .left pad
        · simp [List.find?, hb, ht, hr, hl]
        · simp [List.find?, hb, ht, hr, hl]
      · simp [List.find?, hb, ht, hr]
    · simp [List.find?, hb, ht]
  · simp [List.find?, hb]

theorem calculatePosition_placement (viewport : Viewport) (targetRect : ElementRect)
    (w h : ℚ) (config : PositionConfig) :
    (calculatePosition viewport targetRect w h config).placement =
      resolveFinalPosition viewport targetRect w h config.preferredPosition
        (config.containerPadding.getD 10) :=
  placeAndClamp_placement viewport targetRect w h (config.offset.getD { x := 0, y := 0 })
    (config.containerPadding.getD 10) (config.arrowSize.getD 8) _

/-- C6: with preferredSide auto the sides are tried in the fixed order
bottom, top, right, left, the first with room wins and bottom is the
default; with an explicit side, the side is kept when it has room,
flipped to its geometric opposite exactly when the side lacks room and
the opposite has it, and kept otherwise. -/
theorem C6_placement_resolution (viewport : Viewport) (targetRect : ElementRect)
    (w h : ℚ) (config : PositionConfig) :
    (config.preferredPosition = .auto →
      (calculatePosition viewport targetRect w h config).placement =
        (if hasSpaceForPosition viewport targetRect w h .bottom (config.containerPadding.getD 10)
           then .bottom
         else if hasSpaceForPosition viewport targetRect w h .top (config.containerPadding.getD 10)
           then .top
         else if hasSpaceForPosition viewport targetRect w h .right (config.containerPadding.getD 10)
           then .right
         else if hasSpaceForPosition viewport targetRect w h .left (config.containerPadding.getD 10)
           then .left
         else .bottom)) ∧
    (config.preferredPosition ≠ .auto →
      (hasSpaceForPosition viewport targetRect w h config.preferredPosition
          (config.containerPadding.getD 10) = true →
        (calculatePosition viewport targetRect w h config).placement
          = config.preferredPosition) ∧
      (hasSpaceForPosition viewport targetRect w h config.preferredPosition
          (config.containerPadding.getD 10) = false →
        ∀ opp, oppositesMap config.preferredPosition = some opp →
          (hasSpaceForPosition viewport targetRect w h opp
              (config.containerPadding.getD 10) = true →
            (calculatePosition viewport targetRect w h config).placement = opp) ∧
          (hasSpaceForPosition viewport targetRect w h opp
              (config.containerPadding.getD 10) = false →
            (calculatePosition viewport targetRect w h config).placement
              = config.preferredPosition))) := by
  rw [calculatePosition_placement]
  constructor
  · intro hauto
    unfold resolveFinalPosition
    rw [if_pos hauto, findBestPosition_eq]
  · intro hne
    constructor
    · intro hsp
      unfold resolveFinalPosition
      rw [if_neg hne, if_pos hsp]
    · intro hnsp opp hopp
      constructor
      · intro hso
        unfold resolveFinalPosition
        rw [if_neg hne, if_neg (by simp [hnsp]), hopp]
        simp only
        rw [if_pos hso]
      · intro hnso
        unfold resolveFinalPosition
        rw [if_neg hne, if_neg (by simp [hnsp]), hopp]
        simp only
        rw [if_neg (by simp [hnso])]

/-- C6 witness: a target near the top of an ample viewport with auto
placement resolves to bottom, the first preference; a target flush
against the bottom edge with explicit bottom flips to top. -/
theorem C6_placement_resolution_witness :
    (calculatePosition { width := 1000, height := 800, scrollX := 0, scrollY := 0 }
      { top := 100, left := 450, right := 550, bottom := 120, width := 100, height := 20 }
      100 50 { preferredPosition := .auto, offset := none, containerPadding := none, arrowSize := none }).placement = .bottom ∧
    (calculatePosition { width := 1000, height := 800, scrollX := 0, scrollY := 0 }
      { top := 760, left := 450, right := 550, bottom := 780, width := 100, height := 20 }
      100 50 { preferredPosition := .bottom, offset := none, containerPadding := none, arrowSize := none }).placement = .top := by
  constructor
  · have h := (C6_placement_resolution
      { width := 1000, height := 800, scrollX := 0, scrollY := 0 }
      { top := 100, left := 450, right := 550, bottom := 120, width := 100, height := 20 }
      100 50 { preferredPosition := .auto, offset := none, containerPadding := none, arrowSize := none }).1 rfl
    rw [h]
    rw [if_pos]
    simp only [hasSpaceForPosition, Option.getD_none, Bool.and_eq_true, decide_eq_true_eq]
    norm_num
  · have h := ((C6_placement_resolution
      { width := 1000, height := 800, scrollX := 0, scrollY := 0 }
      { top := 760, left := 450, right := 550, bottom := 780, width := 100, height := 20 }
      100 50 { preferredPosition := .bottom, offset := none, containerPadding := none, arrowSize := none }).2
      (by decide)).2
      (by simp only [hasSpaceForPosition, Option.getD_none, Bool.and_eq_false_iff,
            decide_eq_false_iff_not]
          norm_num) .top rfl
    exact h.1
      (by simp only [hasSpaceForPosition, Option.getD_none, Bool.and_eq_true, decide_eq_true_eq]
          norm_num)

/-- C7 counterexample: with a 200 x 100 viewport at scroll (0, 0), a
target rect of top 80, left 50, right 150, bottom 90, a 50 x 80
tooltip and explicit preferred side bottom (no side has room, so
bottom is kept), the raw top is rect.bottom + arrowSize + 4 = 102 and
clamping moves it to 10, a vertical delta of 92; the claim demands the
vertical arrow offset be shifted by that delta to -8 + 92, but the code
only adjusts the cross-axis offset for top and bottom placements and
leaves arrow top at -8. -/
theorem C7_counterexample :
    (calculatePosition { width := 200, height := 100, scrollX := 0, scrollY := 0 }
      { top := 80, left := 50, right := 150, bottom := 90, width := 100, height := 10 }
      50 80 { preferredPosition := .bottom, offset := none, containerPadding := none, arrowSize := none }).placement = .bottom ∧
    (calculatePosition { width := 200, height := 100, scrollX := 0, scrollY := 0 }
      { top := 80, left := 50, right := 150, bottom := 90, width := 100, height := 10 }
      50 80 { preferredPosition := .bottom, offset := none, containerPadding := none, arrowSize := none }).top = 10 ∧
    (calculatePosition { width := 200, height := 100, scrollX := 0, scrollY := 0 }
      { top := 80, left := 50, right := 150, bottom := 90, width := 100, height := 10 }
      50 80 { preferredPosition := .bottom, offset := none, containerPadding := none, arrowSize := none }).arrowPosition.top = some (-8) ∧
    ¬ (calculatePosition { width := 200, height := 100, scrollX := 0, scrollY := 0 }
      { top := 80, left := 50, right := 150, bottom := 90, width := 100, height := 10 }
      50 80 { preferredPosition := .bottom, offset := none, containerPadding := none, arrowSize := none }).arrowPosition.top
      = some (-8 + (102 - (calculatePosition { width := 200, height := 100, scrollX := 0, scrollY := 0 }
          { top := 80, left := 50, right := 150, bottom := 90, width := 100, height := 10 }
          50 80 { preferredPosition := .bottom, offset := none, containerPadding := none, arrowSize := none }).top)) := by
  have hres : resolveFinalPosition { width := 200, height := 100, scrollX := 0, scrollY := 0 }
      { top := 80, left := 50, right := 150, bottom := 90, width := 100, height := 10 }
      50 80 .bottom 10 = .bottom := by
    unfold resolveFinalPosition
    rw [if_neg (by decide),
        if_neg (by intro hc
                   simp only [hasSpaceForPosition, Bool.and_eq_true, decide_eq_true_eq] at hc
                   norm_num at hc)]
    simp only [oppositesMap]
    rw [if_neg (by intro hc
                   simp only [hasSpaceForPosition, Bool.and_eq_true, decide_eq_true_eq] at hc
                   norm_num at hc)]
  have hstep : calculatePosition { width := 200, height := 100, scrollX := 0, scrollY := 0 }
      { top := 80, left := 50, right := 150, bottom := 90, width := 100, height := 10 }
      50 80 { preferredPosition := .bottom, offset := none, containerPadding := none, arrowSize := none }
      = placeAndClamp { width := 200, height := 100, scrollX := 0, scrollY := 0 }
          { top := 80, left := 50, right := 150, bottom := 90, width := 100, height := 10 }
          50 80 { x := 0, y := 0 } 10 8
          (resolveFinalPosition { width := 200, height := 100, scrollX := 0, scrollY := 0 }
            { top := 80, left := 50, right := 150, bottom := 90, width := 100, height := 10 }
            50 80 .bottom 10) := rfl
  rw [hstep, hres]
  have htop : (placeAndClamp { width := 200, height := 100, scrollX := 0, scrollY := 0 }
      { top := 80, left := 50, right := 150, bottom := 90, width := 100, height := 10 }
      50 80 { x := 0, y := 0 } 10 8 .bottom).top = 10 := by
    simp only [placeAndClamp]
    norm_num [max_def, min_def]
  have harrow : (placeAndClamp { width := 200, height := 100, scrollX := 0, scrollY := 0 }
      { top := 80, left := 50, right := 150, bottom := 90, width := 100, height := 10 }
      50 80 { x := 0, y := 0 } 10 8 .bottom).arrowPosition.top = some (-8) := rfl
  refine ⟨rfl, htop, harrow, ?_⟩
  rw [htop, harrow]
  intro hc
  rw [Option.some_inj] at hc
  norm_num at hc

/-- C7 (amended): the returned top and left lie in the clamp intervals
whenever those are non-empty, and the arrow offset adjustment applies
on the cross axis only: for top and bottom placements, arrow left plus
the clamped left equals the raw arrow left plus the raw (unclamped)
left, and symmetrically for left and right placements on the vertical
axis; the main-axis arrow offset is not adjusted. -/
theorem C7_clamping (viewport : Viewport) (targetRect : ElementRect)
    (w h : ℚ) (config : PositionConfig) :
    (viewport.scrollY + config.containerPadding.getD 10
        ≤ viewport.scrollY + viewport.height - h - config.containerPadding.getD 10 →
      viewport.scrollY + config.containerPadding.getD 10
          ≤ (calculatePosition viewport targetRect w h config).top ∧
        (calculatePosition viewport targetRect w h config).top
          ≤ viewport.scrollY + viewport.height - h - config.containerPadding.getD 10) ∧
    (viewport.scrollX + config.containerPadding.getD 10
        ≤ viewport.scrollX + viewport.width - w - config.containerPadding.getD 10 →
      viewport.scrollX + config.containerPadding.getD 10
          ≤ (calculatePosition viewport targetRect w h config).left ∧
        (calculatePosition viewport targetRect w h config).left
          ≤ viewport.scrollX + viewport.width - w - config.containerPadding.getD 10) ∧
    ((calculatePosition viewport targetRect w h config).placement = .top ∨
     (calculatePosition viewport targetRect w h config).placement = .bottom →
      (calculatePosition viewport targetRect w h config).arrowPosition.left =
        some ((w / 2 - config.arrowSize.getD 8 / 2) +
          ((targetRect.left + targetRect.width / 2 - w / 2 + (config.offset.getD { x := 0, y := 0 }).x) -
           (calculatePosition viewport targetRect w h config).left))) ∧
    ((calculatePosition viewport targetRect w h config).placement = .left ∨
     (calculatePosition viewport targetRect w h config).placement = .right →
      (calculatePosition viewport targetRect w h config).arrowPosition.top =
        some ((h / 2 - config.arrowSize.getD 8 / 2) +
          ((targetRect.top + targetRect.height / 2 - h / 2 + (config.offset.getD { x := 0, y := 0 }).y) -
           (calculatePosition viewport targetRect w h config).top))) := by
  refine ⟨?_, ?_, ?_, ?_⟩
  · intro hab
    exact placeAndClamp_top_bounds viewport targetRect w h
      (config.offset.getD { x := 0, y := 0 }) (config.containerPadding.getD 10)
      (config.arrowSize.getD 8) _ hab
  · intro hab
    exact placeAndClamp_left_bounds viewport targetRect w h
      (config.offset.getD { x := 0, y := 0 }) (config.containerPadding.getD 10)
      (config.arrowSize.getD 8) _ hab
  · intro hdir
    have hdir2 : resolveFinalPosition viewport targetRect w h config.preferredPosition
        (config.containerPadding.getD 10) = .top ∨
        resolveFinalPosition viewport targetRect w h config.preferredPosition
        (config.containerPadding.getD 10) = .bottom := by
      rw [← calculatePosition_placement]
      exact hdir
    exact placeAndClamp_arrow_left viewport targetRect w h
      (config.offset.getD { x := 0, y := 0 }) (config.containerPadding.getD 10)
      (config.arrowSize.getD 8) _ hdir2
  · intro hdir
    have hdir2 : resolveFinalPosition viewport targetRect w h config.preferredPosition
        (config.containerPadding.getD 10) = .left ∨
        resolveFinalPosition viewport targetRect w h config.preferredPosition
        (config.containerPadding.getD 10) = .right := by
      rw [← calculatePosition_placement]
      exact hdir
    exact placeAndClamp_arrow_top viewport targetRect w h
      (config.offset.getD { x := 0, y := 0 }) (config.containerPadding.getD 10)
      (config.arrowSize.getD 8) _ hdir2

/-- C7 witness: the amended statement evaluated on a wide viewport with
a bottom placement; the bounds hold and the cross-axis arrow equation
evaluates. -/
theorem C7_clamping_witness :
    ((0 : ℚ) + 10 ≤ (calculatePosition { width := 1000, height := 800, scrollX := 0, scrollY := 0 }
      { top := 300, left := 300, right := 400, bottom := 320, width := 100, height := 20 }
      100 50 { preferredPosition := .bottom, offset := none, containerPadding := none, arrowSize := none }).top) ∧
    (calculatePosition { width := 1000, height := 800, scrollX := 0, scrollY := 0 }
      { top := 300, left := 300, right := 400, bottom := 320, width := 100, height := 20 }
      100 50 { preferredPosition := .bottom, offset := none, containerPadding := none, arrowSize := none }).arrowPosition.left =
      some ((100 / 2 - 8 / 2) +
        ((300 + 100 / 2 - 100 / 2 + 0) -
         (calculatePosition { width := 1000, height := 800, scrollX := 0, scrollY := 0 }
           { top := 300, left := 300, right := 400, bottom := 320, width := 100, height := 20 }
           100 50 { preferredPosition := .bottom, offset := none, containerPadding := none, arrowSize := none }).left)) := by
  have h := C7_clamping { width := 1000, height := 800, scrollX := 0, scrollY := 0 }
    { top := 300, left := 300, right := 400, bottom := 320, width := 100, height := 20 }
    100 50 { preferredPosition := .bottom, offset := none, containerPadding := none, arrowSize := none }
  have hplace : (calculatePosition { width := 1000, height := 800, scrollX := 0, scrollY := 0 }
      { top := 300, left := 300, right := 400, bottom := 320, width := 100, height := 20 }
      100 50 { preferredPosition := .bottom, offset := none, containerPadding := none, arrowSize := none }).placement = .bottom := by
    rw [calculatePosition_placement]
    unfold resolveFinalPosition
    rw [if_neg (by decide), if_pos]
    simp only [Option.getD_none, hasSpaceForPosition, Bool.and_eq_true, decide_eq_true_eq]
    norm_num
  constructor
  · exact (h.1 (by norm_num)).1
  · exact h.2.2.1 (Or.inr hplace)

/-! ### Element resolver (findElement in the positioning source file) -/

/-- A selector strategy descriptor with the four optional strategies. -/
structure SelectorStrategy where
  css : Option String
  xpath : Option String
  text : Option String
  testId : Option String
  deriving DecidableEq

/-- An abstract document: querySelector and XPath evaluation can throw
(error) on malformed input; the text strategy walks the text nodes and
yields the parent element of the first node whose content includes the
substring, or none (both when nothing matches and when the matching
node has no parent element, which the code also returns as null). -/
structure Dom (α : Type) where
  querySelector : String → Except Unit (Option α)
  evaluateXPath : String → Except Unit (Option α)
  textSearch : String → Option α

/-- The attribute selector string the code builds around a testId. -/
def testIdSelector (tid : String) : String :=
  "[data-testid=\"" ++ tid ++ "\"]"

/-- The css block of findElement: guarded by truthiness and try/catch,
an exception or no match both yield nothing. -/
def cssLookup (dom : Dom α) (st : SelectorStrategy) : Option α :=
  match st.css with
  | some css =>
      if css = "" then none
      else
        match dom.querySelector css with
        | .ok (some element) => some element
        | _ => none
  | none => none

/-- The testId block of findElement: guarded by truthiness only, not by
try/catch, so the query result (a possible throw included) passes
through. -/
def tidLookup (dom : Dom α) (st : SelectorStrategy) : Except Unit (Option α) :=
  match st.testId with
  | some tid =>
      if tid = "" then .ok none
      else dom.querySelector (testIdSelector tid)
  | none => .ok none

/-- The xpath block of findElement: guarded by truthiness and
try/catch. -/
def xpathLookup (dom : Dom α) (st : SelectorStrategy) : Option α :=
  match st.xpath with
  | some xp =>
      if xp = "" then none
      else
        match dom.evaluateXPath xp with
        | .ok (some element) => some element
        | _ => none
  | none => none

/-- The text block of findElement: the tree-walker search. -/
def textLookup (dom : Dom α) (st : SelectorStrategy) : Except Unit (Option α) :=
  match st.text with
  | some t => if t = "" then .ok none else .ok (dom.textSearch t)
  | none => .ok none

/-- findElement: null descriptor resolves to null; then the css block,
the testId block (whose throw propagates), the xpath block and the
text block in the order of the source. -/
def findElement (dom : Dom α) (selectorStrategy : Option SelectorStrategy) :
    Except Unit (Option α) :=
  match selectorStrategy with
  | none => .ok none
  | some st =>
    match cssLookup dom st with
    | some element => .ok (some element)
    | none =>
      match tidLookup dom st with
      | .error e => .error e
      | .ok (some element) => .ok (some element)
      | .ok none =>
        match xpathLookup dom st with
        | some element => .ok (some element)
        | none => textLookup dom st

/-- The resolution the claim describes, written from the words of the
specification for comparison with findElement: strategies tried in the
order testId, css, xpath, text, each failure (including a thrown one)
falling through, never throwing, null when nothing matches. -/
def findElementSpecOrder (dom : Dom α) (selectorStrategy : Option SelectorStrategy) :
    Except Unit (Option α) :=
  match selectorStrategy with
  | none => .ok none
  | some st =>
    let tidHit : Option α :=
      match st.testId with
      | some tid =>
          if tid = "" then none
          else
            match dom.querySelector (testIdSelector tid) with
            | .ok (some element) => some element
            | _ => none
      | none => none
    match tidHit with
    | some element => .ok (some element)
    | none =>
      let cssHit : Option α :=
        match st.css with
        | some css =>
            if css = "" then none
            else
              match dom.querySelector css with
              | .ok (some element) => some element
              | _ => none
        | none => none
      match cssHit with
      | some element => .ok (some element)
      | none =>
        let xpathHit : Option α :=
          match st.xpath with
          | some xp =>
              if xp = "" then none
              else
                match dom.evaluateXPath xp with
                | .ok (some element) => some element
                | _ => none
          | none => none
        match xpathHit with
        | some element => .ok (some element)
        | none =>
          match st.text with
          | some t => if t = "" then .ok none else .ok (dom.textSearch t)
          | none => .ok none

/-- The css strategy yields no element: absent, empty, thrown, or no
match. -/
def cssMisses (dom : Dom α) (st : SelectorStrategy) : Prop :=
  match st.css with
  | none => True
  | some css => css = "" ∨ ∀ element, dom.querySelector css ≠ .ok (some element)

/-- The testId strategy yields no element and does not throw. -/
def testIdMisses (dom : Dom α) (st : SelectorStrategy) : Prop :=
  match st.testId with
  | none => True
  | some tid => tid = "" ∨ dom.querySelector (testIdSelector tid) = .ok none

/-- The xpath strategy yields no element: absent, empty, thrown, or no
match. -/
def xpathMisses (dom : Dom α) (st : SelectorStrategy) : Prop :=
  match st.xpath with
  | none => True
  | some xp => xp = "" ∨ ∀ element, dom.evaluateXPath xp ≠ .ok (some element)

/-- The text strategy yields no element. -/
def textMisses (dom : Dom α) (st : SelectorStrategy) : Prop :=
  match st.text with
  | none => True
  | some t => t = "" ∨ dom.textSearch t = none

/-! ### Element resolver lemmas -/

theorem cssLookup_eq_none (dom : Dom α) (st : SelectorStrategy) (hcm : cssMisses dom st) :
    cssLookup dom st = none := by
  unfold cssMisses at hcm
  unfold cssLookup
  rcases hcss : st.css with _ | css
  · rfl
  · rw [hcss] at hcm
    rcases hcm with he | hnm
    · simp [he]
    · by_cases hz : css = ""
      · simp [hz]
      · show (if css = "" then none
              else match dom.querySelector css with
                   | .ok (some element) => some element
                   | _ => none) = none
        rw [if_neg hz]
        rcases hq : dom.querySelector css with e | r
        · rfl
        · rcases r with _ | element
          · rfl
          · exact absurd hq (hnm element)

theorem tidLookup_eq_ok_none (dom : Dom α) (st : SelectorStrategy) (htm : testIdMisses dom st) :
    tidLookup dom st = .ok none := by
  unfold testIdMisses at htm
  unfold tidLookup
  rcases htid : st.testId with _ | tid
  · rfl
  · rw [htid] at htm
    rcases htm with he | hq
    · simp [he]
    · by_cases hz : tid = ""
      · simp [hz]
      · show (if tid = "" then Except.ok none
              else dom.querySelector (testIdSelector tid)) = .ok none
        rw [if_neg hz]
        exact hq

theorem xpathLookup_eq_none (dom : Dom α) (st : SelectorStrategy) (hxm : xpathMisses dom st) :
    xpathLookup dom st = none := by
  unfold xpathMisses at hxm
  unfold xpathLookup
  rcases hxp : st.xpath with _ | xp
  · rfl
  · rw [hxp] at hxm
    rcases hxm with he | hnm
    · simp [he]
    · by_cases hz : xp = ""
      · simp [hz]
      · show (if xp = "" then none
              else match dom.evaluateXPath xp with
                   | .ok (some element) => some element
                   | _ => none) = none
        rw [if_neg hz]
        rcases hq : dom.evaluateXPath xp with e | r
        · rfl
        · rcases r with _ | element
          · rfl
          · exact absurd hq (hnm element)

/-- A concrete document in which a css selector and a testId selector
both match, but different elements. -/
def domPriority : Dom Nat :=
  { querySelector := fun sel =>
      if sel = "#target" then .ok (some 1)
      else if sel = testIdSelector "t" then .ok (some 2)
      else .ok none,
    evaluateXPath := fun _ => .ok none,
    textSearch := fun _ => none }

/-- A concrete document in which the selector built from a testId
containing a quote is malformed, so querySelector throws on it. -/
def domThrowingTestId : Dom Nat :=
  { querySelector := fun sel =>
      if sel = testIdSelector "bad\"" then .error ()
      else .ok none,
    evaluateXPath := fun _ => .ok none,
    textSearch := fun _ => none }

/-- A concrete document in which every strategy misses. -/
def domEmpty : Dom Nat :=
  { querySelector := fun _ => .ok none,
    evaluateXPath := fun _ => .ok none,
    textSearch := fun _ => none }

/-- C1 counterexample: on a document where both the css selector and
the testId attribute selector match (different elements), findElement
returns the css match while the claimed testId-first order returns the
testId match, so the priority order of the claim is wrong; moreover a
testId whose generated attribute selector is malformed makes
findElement throw, because the testId query is the only one not
wrapped in try/catch. -/
theorem C1_counterexample :
    findElement domPriority
      (some { css := some "#target", xpath := none, text := none, testId := some "t" })
      = .ok (some 1) ∧
    findElementSpecOrder domPriority
      (some { css := some "#target", xpath := none, text := none, testId := some "t" })
      = .ok (some 2) ∧
    findElement domPriority
      (some { css := some "#target", xpath := none, text := none, testId := some "t" })
      ≠ findElementSpecOrder domPriority
        (some { css := some "#target", xpath := none, text := none, testId := some "t" }) ∧
    findElement domThrowingTestId
      (some { css := none, xpath := none, text := none, testId := some "bad\"" })
      = .error () := by
  have h1 : findElement domPriority
      (some { css := some "#target", xpath := none, text := none, testId := some "t" })
      = .ok (some 1) := rfl
  have h2 : findElementSpecOrder domPriority
      (some { css := some "#target", xpath := none, text := none, testId := some "t" })
      = .ok (some 2) := rfl
  have h3 : findElement domThrowingTestId
      (some { css := none, xpath := none, text := none, testId := some "bad\"" })
      = .error () := rfl
  refine ⟨h1, h2, ?_, h3⟩
  rw [h1, h2]
  intro h
  simp at h

/-- C1 (amended): findElement tries the strategies in the fixed
priority order css, then testId, then xpath, then text,
short-circuiting on the first strategy that yields a match; a
malformed CSS selector or XPath expression is caught and treated
identically to a resolution failure, but the testId query is not
guarded, so it can throw and that error propagates; when every
strategy misses (the testId one without throwing), the result is null
without an exception, and a null descriptor resolves to null. -/
theorem C1_resolution_order (dom : Dom α) (st : SelectorStrategy) :
    (findElement dom (none : Option SelectorStrategy) = .ok none) ∧
    (∀ css element, st.css = some css → css ≠ "" →
      dom.querySelector css = .ok (some element) →
      findElement dom (some st) = .ok (some element)) ∧
    (cssMisses dom st →
      (∀ tid, st.testId = some tid → tid ≠ "" →
        (∀ element, dom.querySelector (testIdSelector tid) = .ok (some element) →
          findElement dom (some st) = .ok (some element)) ∧
        (dom.querySelector (testIdSelector tid) = .error () →
          findElement dom (some st) = .error ()))) ∧
    (cssMisses dom st → testIdMisses dom st →
      ∀ xp element, st.xpath = some xp → xp ≠ "" →
      dom.evaluateXPath xp = .ok (some element) →
      findElement dom (some st) = .ok (some element)) ∧
    (cssMisses dom st → testIdMisses dom st → xpathMisses dom st →
      ∀ t element, st.text = some t → t ≠ "" → dom.textSearch t = some element →
      findElement dom (some st) = .ok (some element)) ∧
    (cssMisses dom st → testIdMisses dom st → xpathMisses dom st → textMisses dom st →
      findElement dom (some st) = .ok none) := by
  refine ⟨rfl, ?_, ?_, ?_, ?_, ?_⟩
  · intro css element hcss hne hq
    have hcl : cssLookup dom st = some element := by
      unfold cssLookup
      rw [hcss]
      show (if css = "" then none
            else match dom.querySelector css with
                 | .ok (some element) => some element
                 | _ => none) = some element
      rw [if_neg hne, hq]
    simp only [findElement, hcl]
  · intro hcm tid htid hne
    have hcl := cssLookup_eq_none dom st hcm
    constructor
    · intro element hq
      have htl : tidLookup dom st = .ok (some element) := by
        unfold tidLookup
        rw [htid]
        show (if tid = "" then Except.ok none
              else dom.querySelector (testIdSelector tid)) = .ok (some element)
        rw [if_neg hne, hq]
      simp only [findElement, hcl, htl]
    · intro hq
      have htl : tidLookup dom st = .error () := by
        unfold tidLookup
        rw [htid]
        show (if tid = "" then Except.ok none
              else dom.querySelector (testIdSelector tid)) = .error ()
        rw [if_neg hne, hq]
      simp only [findElement, hcl, htl]
  · intro hcm htm xp element hxp hne hq
    have hcl := cssLookup_eq_none dom st hcm
    have htl := tidLookup_eq_ok_none dom st htm
    have hxl : xpathLookup dom st = some element := by
      unfold xpathLookup
      rw [hxp]
      show (if xp = "" then none
            else match dom.evaluateXPath xp with
                 | .ok (some element) => some element
                 | _ => none) = some element
      rw [if_neg hne, hq]
    simp only [findElement, hcl, htl, hxl]
  · intro hcm htm hxm t element ht hne hq
    have hcl := cssLookup_eq_none dom st hcm
    have htl := tidLookup_eq_ok_none dom st htm
    have hxl := xpathLookup_eq_none dom st hxm
    have htx : textLookup dom st = .ok (some element) := by
      unfold textLookup
      rw [ht]
      show (if t = "" then Except.ok none else Except.ok (dom.textSearch t))
        = .ok (some element)
      rw [if_neg hne, hq]
    simp only [findElement, hcl, htl, hxl, htx]
  · intro hcm htm hxm hex
    have hcl := cssLookup_eq_none dom st hcm
    have htl := tidLookup_eq_ok_none dom st htm
    have hxl := xpathLookup_eq_none dom st hxm
    have htx : textLookup dom st = .ok none := by
      unfold textMisses at hex
      unfold textLookup
      rcases ht : st.text with _ | t
      · rfl
      · rw [ht] at hex
        rcases hex with he | hn
        · simp [he]
        · by_cases hz : t = ""
          · simp [hz]
          · show (if t = "" then Except.ok none else Except.ok (dom.textSearch t)) = .ok none
            rw [if_neg hz, hn]
    simp only [findElement, hcl, htl, hxl, htx]

/-- C1 witness: on the document where every strategy misses and a
descriptor with all four fields set, resolution returns null without
throwing. -/
theorem C1_resolution_order_witness :
    findElement domEmpty
      (some { css := some "#x", xpath := some "//x", text := some "hello", testId := some "tid" })
      = .ok none := by
  have h := (C1_resolution_order domEmpty
    { css := some "#x", xpath := some "//x", text := some "hello", testId := some "tid" }).2.2.2.2.2
  apply h
  · unfold cssMisses
    right
    intro element he
    simp [domEmpty] at he
  · unfold testIdMisses
    right
    simp [domEmpty]
  · unfold xpathMisses
    right
    intro element he
    simp [domEmpty] at he
  · unfold textMisses
    right
    simp [domEmpty]

/-! ### Step body sanitizer (sanitizeHTML in StepContent) -/

/-- Lowercasing, as a kernel computable model of toLowerCase. -/
def lowerStr (s : String) : String := String.mk (s.data.map Char.toLower)

/-- Whether s starts with p, kernel computable. -/
def startsWithStr (s p : String) : Bool := p.data.isPrefixOf s.data

/-- Whitespace trimming at both ends, kernel computable. -/
def trimStr (s : String) : String :=
  String.mk (((s.data.dropWhile Char.isWhitespace).reverse.dropWhile Char.isWhitespace).reverse)

/-- Whether a string contains a character, kernel computable. -/
def containsChar (s : String) (c : Char) : Bool := s.data.contains c

/-- A parsed HTML node: a text node or an element with a tag, an
attribute list and children. The browser innerHTML parser that builds
these from the body string stays abstract. -/
inductive HNode where
  | text (s : String)
  | elem (tag : String) (attrs : List (String × String)) (children : List HNode)

/-- The tag allow-list of sanitizeHTML. -/
def allowedTags : List String :=
  ["p", "br", "b", "i", "strong", "em", "u", "s",
   "h1", "h2", "h3", "h4", "h5", "h6",
   "ul", "ol", "li",
   "a", "code", "pre", "blockquote",
   "span", "div"]

/-- The attribute allow-list of sanitizeHTML. -/
def allowedAttrs : List String := ["href", "target", "rel", "class", "style"]

/-- The dangerous-URL test of sanitizeHTML: the lowercased trimmed
value starts with javascript: or data:. -/
def dangerousUrl (value : String) : Bool :=
  startsWithStr (trimStr (lowerStr value)) "javascript:" ||
  startsWithStr (trimStr (lowerStr value)) "data:"

/-- Whether one attribute survives the removal loop of sanitizeHTML:
removed when its name starts with on, when it is an href or src with a
dangerous URL, or when it is not in the attribute allow-list. -/
def keepAttr (a : String × String) : Bool :=
  if startsWithStr (lowerStr a.1) "on" then false
  else if (lowerStr a.1 == "href" || lowerStr a.1 == "src") && dangerousUrl a.2 then false
  else allowedAttrs.contains (lowerStr a.1)

/-- setAttribute: replace the value of an existing attribute of that
name, or append the attribute. -/
def setAttr (attrs : List (String × String)) (name value : String) :
    List (String × String) :=
  if attrs.any (fun a => a.1 == name) then
    attrs.map (fun a => if a.1 == name then (name, value) else a)
  else attrs ++ [(name, value)]

mutual

/-- textContent of a node: its own text or the concatenated text of
the subtree. -/
def textContent : HNode → String
  | .text s => s
  | .elem _ _ children => textContentList children

def textContentList : List HNode → String
  | [] => ""
  | n :: rest => textContent n ++ textContentList rest

end

mutual

/-- First phase of sanitizeHTML: remove every script element
(querySelectorAll of script followed by remove). -/
def stripScripts : HNode → Option HNode
  | .text s => some (.text s)
  | .elem tag attrs children =>
      if lowerStr tag = "script" then none
      else some (.elem tag attrs (stripScriptsList children))

def stripScriptsList : List HNode → List HNode
  | [] => []
  | n :: rest =>
      match stripScripts n with
      | some m => m :: stripScriptsList rest
      | none => stripScriptsList rest

end

mutual

/-- Second phase of sanitizeHTML, per element in document order: a tag
outside the allow-list is replaced by a text node holding its
textContent; an allowed element keeps only the attributes that survive
keepAttr, and an anchor gets rel noopener noreferrer and target
_blank set. -/
def sanitizeNode : HNode → HNode
  | .text s => .text s
  | .elem tag attrs children =>
      if allowedTags.contains (lowerStr tag) then
        .elem tag
          (if lowerStr tag = "a" then
             setAttr (setAttr (attrs.filter (fun a => keepAttr a)) "rel" "noopener noreferrer")
               "target" "_blank"
           else attrs.filter (fun a => keepAttr a))
          (sanitizeNodeList children)
      else .text (textContentList children)

def sanitizeNodeList : List HNode → List HNode
  | [] => []
  | n :: rest => sanitizeNode n :: sanitizeNodeList rest

end

/-- sanitizeHTML on the parsed fragment: remove scripts, then run the
element loop. -/
def sanitizeHTML (fragment : List HNode) : List HNode :=
  sanitizeNodeList (stripScriptsList fragment)

/-- A sane attribute: its name does not start with on, and an href or
src value is not a dangerous URL. -/
def attrSane (a : String × String) : Prop :=
  startsWithStr (lowerStr a.1) "on" = false ∧
  ((lowerStr a.1 = "href" ∨ lowerStr a.1 = "src") → dangerousUrl a.2 = false)

mutual

/-- The output guarantee of the claim, per node: every element carries
an allow-listed tag, only sane attributes, and an anchor carries the
forced rel and target. -/
def SaneNode : HNode → Prop
  | .text _ => True
  | .elem tag attrs children =>
      allowedTags.contains (lowerStr tag) = true ∧
      (∀ a ∈ attrs, attrSane a) ∧
      (lowerStr tag = "a" →
        ("rel", "noopener noreferrer") ∈ attrs ∧ ("target", "_blank") ∈ attrs) ∧
      SaneList children

def SaneList : List HNode → Prop
  | [] => True
  | n :: rest => SaneNode n ∧ SaneList rest

end

/-- How StepContent renders the body: markup through sanitizeHTML when
a < occurs in the body, otherwise plain text. -/
inductive RenderedBody where
  | plainText (s : String)
  | markup (nodes : List HNode)

/-- The body rendering decision of StepContent, with the browser
parser passed in abstractly. -/
def renderStepBody (parse : String → List HNode) (body : String) : RenderedBody :=
  if containsChar body '<' then .markup (sanitizeHTML (parse body))
  else .plainText body

/-! ### Sanitizer lemmas -/

theorem keepAttr_attrSane (a : String × String) (h : keepAttr a = true) : attrSane a := by
  unfold keepAttr at h
  by_cases h1 : startsWithStr (lowerStr a.1) "on" = true
  · rw [if_pos h1] at h
    cases h
  · rw [if_neg h1] at h
    by_cases h2 : ((lowerStr a.1 == "href" || lowerStr a.1 == "src") && dangerousUrl a.2) = true
    · rw [if_pos h2] at h
      cases h
    · refine ⟨by simpa using h1, ?_⟩
      intro hns
      by_cases hd : dangerousUrl a.2 = true
      · exfalso
        apply h2
        rw [Bool.and_eq_true]
        refine ⟨?_, hd⟩
        rw [Bool.or_eq_true]
        rcases hns with hq | hq
        · exact Or.inl (beq_iff_eq.mpr hq)
        · exact Or.inr (beq_iff_eq.mpr hq)
      · simpa using hd

theorem setAttr_mem_self (attrs : List (String × String)) (name value : String) :
    (name, value) ∈ setAttr attrs name value := by
  unfold setAttr
  split
  · next hany =>
      rw [List.any_eq_true] at hany
      obtain ⟨a, ha, he⟩ := hany
      refine List.mem_map.mpr ⟨a, ha, ?_⟩
      rw [if_pos he]
  · exact List.mem_append_right _ (List.mem_singleton.mpr rfl)

theorem setAttr_mem_of_ne (attrs : List (String × String)) (name value : String)
    (p : String × String) (hp : p ∈ attrs) (hne : ¬ p.1 = name) :
    p ∈ setAttr attrs name value := by
  unfold setAttr
  split
  · refine List.mem_map.mpr ⟨p, hp, ?_⟩
    rw [if_neg (by simpa using hne)]
  · exact List.mem_append_left _ hp

theorem setAttr_attrSane (attrs : List (String × String)) (name value : String)
    (hall : ∀ a ∈ attrs, attrSane a) (hnew : attrSane (name, value)) :
    ∀ a ∈ setAttr attrs name value, attrSane a := by
  unfold setAttr
  split
  · intro a ha
    obtain ⟨b, hb, hba⟩ := List.mem_map.mp ha
    by_cases hbn : (b.1 == name) = true
    · rw [if_pos hbn] at hba
      rw [← hba]
      exact hnew
    · rw [if_neg hbn] at hba
      rw [← hba]
      exact hall b hb
  · intro a ha
    rcases List.mem_append.mp ha with h | h
    · exact hall a h
    · rw [List.mem_singleton.mp h]
      exact hnew

theorem attrSane_rel : attrSane ("rel", "noopener noreferrer") := by
  unfold attrSane
  decide

theorem attrSane_target : attrSane ("target", "_blank") := by
  unfold attrSane
  decide

mutual

theorem saneNode_sanitizeNode : (n : HNode) → SaneNode (sanitizeNode n)
  | .text s => by
      unfold sanitizeNode SaneNode
      trivial
  | .elem tag attrs children => by
      unfold sanitizeNode
      by_cases hal : allowedTags.contains (lowerStr tag) = true
      · rw [if_pos hal]
        have hkept : ∀ a ∈ attrs.filter (fun a => keepAttr a), attrSane a := by
          intro a ha
          exact keepAttr_attrSane a (List.of_mem_filter ha)
        by_cases hA : lowerStr tag = "a"
        · rw [if_pos hA]
          unfold SaneNode
          refine ⟨hal, ?_, ?_, saneList_sanitizeNodeList children⟩
          · exact setAttr_attrSane _ "target" "_blank"
              (setAttr_attrSane _ "rel" "noopener noreferrer" hkept attrSane_rel)
              attrSane_target
          · intro _
            refine ⟨?_, ?_⟩
            · exact setAttr_mem_of_ne _ "target" "_blank" _
                (setAttr_mem_self _ "rel" "noopener noreferrer") (by decide)
            · exact setAttr_mem_self _ "target" "_blank"
        · rw [if_neg hA]
          unfold SaneNode
          exact ⟨hal, hkept, fun hc => absurd hc hA, saneList_sanitizeNodeList children⟩
      · rw [if_neg hal]
        unfold SaneNode
        trivial

theorem saneList_sanitizeNodeList : (l : List HNode) → SaneList (sanitizeNodeList l)
  | [] => by
      unfold sanitizeNodeList SaneList
      trivial
  | n :: rest => by
      unfold sanitizeNodeList SaneList
      exact ⟨saneNode_sanitizeNode n, saneList_sanitizeNodeList rest⟩

end

/-- C8: a body with no < character renders as plain text, never as
markup; a body with a < character renders as the sanitized markup, and
every sanitized fragment contains only allow-listed tags, no attribute
whose name starts with on, no href or src with a javascript: or data:
URL, and every anchor carries the forced rel and target. -/
theorem C8_sanitization (parse : String → List HNode) (body : String) :
    (containsChar body '<' = false → renderStepBody parse body = .plainText body) ∧
    (containsChar body '<' = true →
      renderStepBody parse body = .markup (sanitizeHTML (parse body))) ∧
    (∀ fragment : List HNode, SaneList (sanitizeHTML fragment)) := by
  refine ⟨?_, ?_, ?_⟩
  · intro h
    unfold renderStepBody
    rw [if_neg (by simp [h])]
  · intro h
    unfold renderStepBody
    rw [if_pos h]
  · intro fragment
    unfold sanitizeHTML
    exact saneList_sanitizeNodeList (stripScriptsList fragment)

/-- C8 witness: the plain body hello renders as plain text, and the
sanitized form of a concrete fragment with a script, a disallowed
tag and a dangerous anchor is sane. -/
theorem C8_sanitization_witness :
    renderStepBody (fun _ => []) "hello" = .plainText "hello" ∧
    SaneList (sanitizeHTML
      [.elem "script" [] [.text "evil()"],
       .elem "marquee" [("onclick", "x()")] [.text "hi"],
       .elem "a" [("href", "javascript:alert(1)")] [.text "link"]]) := by
  constructor
  · exact (C8_sanitization (fun _ => []) "hello").1 (by decide)
  · exact (C8_sanitization (fun _ => []) "hello").2.2
      [.elem "script" [] [.text "evil()"],
       .elem "marquee" [("onclick", "x()")] [.text "hi"],
       .elem "a" [("href", "javascript:alert(1)")] [.text "link"]]

/-! ### EmbeddedStep mount and teardown effects -/

/-- A child node of the embed target: the inserted census container or
a chunk of pre-existing host content. -/
inductive EmbedNode where
  | container
  | hostContent (markup : String)
  deriving DecidableEq

/-- The target element of an embedded step: its tag and its children
(its innerHTML). -/
structure EmbedTarget where
  tagName : String
  content : List EmbedNode
  deriving DecidableEq

/-- The three insertion modes of EmbeddedStep. -/
inductive EmbeddedPosition where
  | prepend
  | append
  | replace
  deriving DecidableEq

/-- The tags EmbeddedStep treats as unable to contain children. -/
def VOID_ELEMENTS : List String :=
  ["area", "base", "br", "col", "embed", "hr", "img", "input",
   "link", "meta", "param", "source", "track", "wbr", "canvas"]

/-- canEmbed: the lowercased tag is not in the void list. -/
def canEmbed (tagName : String) : Bool :=
  !(VOID_ELEMENTS.contains (lowerStr tagName))

/-- The first EmbeddedStep effect: keep the resolved element only when
it exists and can embed; otherwise the target is null and nothing
renders or mutates. -/
def resolveEmbedTarget : Option EmbedTarget → Option EmbedTarget
  | some el => if canEmbed el.tagName then some el else none
  | none => none

/-- The mounted state: the mutated target plus the captured original
innerHTML (captured only in replace mode). -/
structure EmbedMountState where
  target : EmbedTarget
  originalContent : Option (List EmbedNode)
  deriving DecidableEq

/-- The second EmbeddedStep effect: replace captures the innerHTML,
clears it and appends the container; prepend inserts the container
before the first child; append appends it. -/
def mountEmbedded (position : EmbeddedPosition) (el : EmbedTarget) : EmbedMountState :=
  match position with
  | .replace =>
      { target := { el with content := [.container] },
        originalContent := some el.content }
  | .prepend =>
      { target := { el with content := .container :: el.content },
        originalContent := none }
  | .append =>
      { target := { el with content := el.content ++ [.container] },
        originalContent := none }

/-- The EmbeddedStep cleanup: remove the container, then restore the
captured innerHTML when the mode was replace and a capture exists. -/
def unmountEmbedded (position : EmbeddedPosition) (s : EmbedMountState) : EmbedTarget :=
  let afterRemove : EmbedTarget :=
    { s.target with content := s.target.content.erase .container }
  match position, s.originalContent with
  | .replace, some orig => { afterRemove with content := orig }
  | _, _ => afterRemove

/-- The whole mount pipeline: resolution gate then mount; none means
the component rendered nothing and mutated nothing. -/
def embedStep (position : EmbeddedPosition) (resolved : Option EmbedTarget) :
    Option EmbedMountState :=
  match resolveEmbedTarget resolved with
  | some el => some (mountEmbedded position el)
  | none => none

/-- C9: in replace mode, teardown after mount restores the target
exactly to its original state (original innerHTML back, inserted
container gone); and a resolved target whose tag is in the void list
yields no mount at all, for every insertion mode: nothing renders and
the target is not mutated. -/
theorem C9_embedded_rollback (el : EmbedTarget) (position : EmbeddedPosition) :
    unmountEmbedded .replace (mountEmbedded .replace el) = el ∧
    (canEmbed el.tagName = false → embedStep position (some el) = none) := by
  constructor
  · cases el
    rfl
  · intro h
    have hres : resolveEmbedTarget (some el) = none := by
      show (if canEmbed el.tagName = true then some el else none) = none
      rw [if_neg (by simp [h])]
    unfold embedStep
    rw [hres]

/-- C9 witness: a div with host content rolls back exactly, and an img
target (a void element) produces no mount in replace mode. -/
theorem C9_embedded_rollback_witness :
    unmountEmbedded .replace
      (mountEmbedded .replace { tagName := "div", content := [.hostContent "<p>x</p>"] })
      = { tagName := "div", content := [.hostContent "<p>x</p>"] } ∧
    embedStep .replace (some { tagName := "img", content := [] }) = none := by
  constructor
  · exact (C9_embedded_rollback { tagName := "div", content := [.hostContent "<p>x</p>"] } .replace).1
  · exact (C9_embedded_rollback { tagName := "img", content := [] } .replace).2 (by decide)

end Census
